import Mathlib

/-!
Shallow embedding of the hierarchical grid-navigation engine in
`src/controller/grid.rs` (the `anubis` repository), together with proofs
about its behaviour.

Modelling conventions:
* Rust `Result<T>` / panics are modelled by `Res T := Except Err T`, where
  `Err.panic` stands for a Rust panic (vector index out of range,
  `Option::unwrap` on `None`) and `Err.fail msg` for a `bail!`-style error.
* `Arc<Mutex<LayoutGrid>>` / `Weak<Mutex<LayoutGrid>>` references are
  modelled by indices into an `Arena : List LayoutGrid`; all navigation
  functions thread the arena explicitly.  `GridItem` values are immutable
  after construction in the source, so the shared `Arc<Mutex<GridItem>>`
  occupants are modelled by plain values.
* The `f64` fractions exchanged between parent and child layouts are
  modelled exactly by `Frac`, an unreduced integer numerator/denominator
  pair: the source only ever builds such a fraction as a quotient of two
  integer casts, scales it by an integer, and truncates it with `as usize`,
  and on the values that reach those operations the exact rational result
  coincides with the `f64` one.
* The mutually recursive navigation procedures are defined by structural
  recursion on an explicit fuel parameter (`navFns`); running out of fuel
  yields the distinguished error `Err.fail "out of fuel"`, which is never
  hit at the fuel values used in the concrete theorems.
-/

inductive Err where
  | panic
  | fail (msg : String)
deriving DecidableEq, Repr

abbrev Res (α : Type) := Except Err α

deriving instance DecidableEq for Except

/-- Exact model of the `f64` fractions passed between layouts (see the file
header).  `num`/`den` are kept unreduced. -/
structure Frac where
  num : Int
  den : Int
deriving DecidableEq, Repr

/-- Rust `as usize` applied to the fraction: on a non-negative finite value
it truncates toward zero, negative values saturate to `0`; both coincide
with `Int.fdiv`-then-`toNat` here.  The only reachable division by zero in
the source is `0.0 / 0.0`, whose `NaN as usize` is `0`, matched by the
`den = 0` branch. -/
def Frac.toUsize (f : Frac) : Nat :=
  if f.den = 0 then 0 else (Int.fdiv f.num f.den).toNat

/-- `k as f64 * fraction` from the source, kept exact. -/
def Frac.scale (k : Int) (f : Frac) : Frac := ⟨k * f.num, f.den⟩

/-- `Rect`: an inclusive rectangle (from `grid.rs`). -/
structure Rect where
  x_start : Nat
  x_end : Nat
  y_start : Nat
  y_end : Nat
deriving DecidableEq, Repr

/-- `Rect::new`; the `x_start < 0` check of the source is vacuous on
`usize` and is omitted. -/
def Rect.new (x_start x_end y_start y_end : Nat) : Res Rect :=
  if x_end < x_start ∨ y_end < y_start then
    .error (.fail "end must be greater or eq to start")
  else .ok ⟨x_start, x_end, y_start, y_end⟩

/-- `Point`: a (possibly out-of-bounds) grid coordinate. -/
structure Point where
  x : Int
  y : Int
deriving DecidableEq, Repr

def Point.add (p : Point) (dx dy : Int) : Point := ⟨p.x + dx, p.y + dy⟩

def Rect.top_left (r : Rect) : Point := ⟨(r.x_start : Int), (r.y_start : Int)⟩

def Rect.top_right (r : Rect) : Point := ⟨(r.x_end : Int), (r.y_start : Int)⟩

def Rect.bottom_left (r : Rect) : Point := ⟨(r.x_start : Int), (r.y_end : Int)⟩

def Rect.bottom_right (r : Rect) : Point := ⟨(r.x_end : Int), (r.y_end : Int)⟩

inductive Direction where
  | Up
  | Down
  | Left
  | Right
deriving DecidableEq, Repr

def Direction.as_dir_vector : Direction → Int × Int
  | .Up => (0, -1)
  | .Down => (0, 1)
  | .Left => (-1, 0)
  | .Right => (1, 0)

def Direction.as_side_dir_vectors : Direction → (Int × Int) × (Int × Int)
  | .Up | .Down => ((-1, 0), (1, 0))
  | .Left | .Right => ((0, -1), (0, 1))

/-- `Grid2D<T>`: the dense occupancy grid, indexed `grid[x][y]`. -/
structure Grid2D (T : Type) where
  x_size : Nat
  y_size : Nat
  grid : List (List (Option T))
deriving DecidableEq, Repr

/-- `Grid2D::new`. -/
def Grid2D.new (T : Type) (x_size y_size : Nat) : Res (Grid2D T) :=
  if x_size = 0 ∨ y_size = 0 then .error (.fail "invalid grid size")
  else .ok ⟨x_size, y_size, List.replicate x_size (List.replicate y_size none)⟩

/-- Rust `self.grid[x][y]` (read): panics when the index is outside the
backing vectors. -/
def Grid2D.cellGet {T : Type} (g : Grid2D T) (x y : Nat) : Res (Option T) :=
  match g.grid.get? x with
  | none => .error .panic
  | some col =>
    match col.get? y with
    | none => .error .panic
    | some c => .ok c

/-- Rust `self.grid[x][y] = v`: panics when the index is outside the
backing vectors. -/
def Grid2D.cellSet {T : Type} (g : Grid2D T) (x y : Nat) (v : Option T) : Res (Grid2D T) :=
  match g.grid.get? x with
  | none => .error .panic
  | some col =>
    if y < col.length then .ok { g with grid := g.grid.set x (col.set y v) }
    else .error .panic

/-- `Grid2D::expand`.  Faithful to the source: the new columns and the
extensions of the existing columns are appended, but the `x_size` and
`y_size` fields are never updated. -/
def Grid2D.expand {T : Type} (g : Grid2D T) (new_x_size new_y_size : Nat) : Res (Grid2D T) :=
  if new_x_size < g.x_size then
    .error (.fail "new_x_size is smaller than the current x_size")
  else if new_y_size < g.y_size then
    .error (.fail "new_y_size is smaller than the current y_size")
  else
    let x_diff := new_x_size - g.x_size
    let y_diff := new_y_size - g.y_size
    let grown := g.grid ++ List.replicate x_diff (List.replicate new_y_size (none : Option T))
    let grown := grown.mapIdx fun i col =>
      if i < g.x_size then col ++ List.replicate y_diff none else col
    .ok { g with grid := grown }

/-- `Grid2D::within_bounds`. -/
def Grid2D.within_bounds {T : Type} (g : Grid2D T) (x y : Int) : Bool :=
  !(x ≥ (g.x_size : Int) ∨ x < 0 ∨ y ≥ (g.y_size : Int) ∨ y < 0 : Bool)

/-- `Grid2D::within_bounds_point`. -/
def Grid2D.within_bounds_point {T : Type} (g : Grid2D T) (pt : Point) : Bool :=
  !(pt.x ≥ (g.x_size : Int) ∨ pt.x < 0 ∨ pt.y ≥ (g.y_size : Int) ∨ pt.y < 0 : Bool)

/-- `Grid2D::fill`: bounds check (note the source compares the inclusive
`x_end`/`y_end` with `>` against the sizes), then an occupancy check over
the whole rect, then the writes. -/
def Grid2D.fill {T : Type} (g : Grid2D T) (rect : Rect) (elem : T) : Res (Grid2D T) := do
  if rect.x_end > g.x_size ∨ rect.y_end > g.y_size then
    throw (.fail "oversized rect detected")
  let xs := List.range' rect.x_start (rect.x_end + 1 - rect.x_start)
  let ys := List.range' rect.y_start (rect.y_end + 1 - rect.y_start)
  xs.forM fun x => ys.forM fun y => do
    let c ← g.cellGet x y
    if c.isSome then throw (.fail "overlapping rect") else pure ()
  xs.foldlM (fun g x => ys.foldlM (fun g y => Grid2D.cellSet g x y (some elem)) g) g

/-- `Grid2D::at`. -/
def Grid2D.at' {T : Type} (g : Grid2D T) (x y : Nat) : Res (Option T) :=
  if x ≥ g.x_size ∨ y ≥ g.y_size then .error (.fail "invalid coordinate")
  else g.cellGet x y

/-- The backing vectors agree with the recorded sizes (true of every grid
produced by `Grid2D::new` and preserved by `fill`; broken by `expand`). -/
def Grid2D.wf {T : Type} (g : Grid2D T) : Prop :=
  g.grid.length = g.x_size ∧ ∀ col ∈ g.grid, col.length = g.y_size

inductive SpecialHandlerAction where
  | NavigateOutRight
  | NavigateOutLeft
deriving DecidableEq, Repr

/-- `gilrs::Button`, opaque here. -/
abbrev Button := Nat

inductive GrowDirection where
  | GrowX
  | GrowY
deriving DecidableEq, Repr

/-- `GrowConfig`. -/
structure GrowConfig where
  item_x : Nat
  item_y : Nat
  grow_direction : GrowDirection
  current_grow_point : Point
deriving DecidableEq, Repr

/-- `GridItem`: a grid occupant.  The `Arc<Mutex<LayoutGrid>>` held by a
`Sublayout` is an arena index here. -/
inductive GridItem where
  | Element (focus_id : String) (rect : Rect)
  | Sublayout (node : Nat) (rect : Rect)
deriving DecidableEq, Repr

/-- `LayoutGrid`.  `parent` is the parent's arena index; the `sublayouts`
child index maps a layout id to the shared `GridItem` occupant. -/
structure LayoutGrid where
  grid : Grid2D GridItem
  layout_state : Option Point
  special_handler : List (Button × SpecialHandlerAction)
  parent : Option Nat
  layout_id : String
  sublayouts : List (String × GridItem)
  grow_config : Option GrowConfig
deriving DecidableEq, Repr

abbrev Arena := List LayoutGrid

/-- Dereference a node reference (a dangling `Weak` would panic via
`unwrap` in the source). -/
def getNode (a : Arena) (i : Nat) : Res LayoutGrid :=
  match a.get? i with
  | some n => .ok n
  | none => .error .panic

def setNode (a : Arena) (i : Nat) (n : LayoutGrid) : Arena := a.set i n

/-- `LayoutGrid::new`. -/
def LayoutGrid.new (size_x size_y : Nat) (layout_id : String) : Res LayoutGrid := do
  let g ← Grid2D.new GridItem size_x size_y
  .ok { grid := g, layout_state := none, special_handler := [], parent := none,
        layout_id := layout_id, sublayouts := [], grow_config := none }

/-- `LayoutGrid::new_growable`. -/
def LayoutGrid.new_growable (size_x size_y : Nat) (layout_id : String)
    (grow_x grow_y : Nat) (grow_dir : GrowDirection) : Res LayoutGrid := do
  let base ← LayoutGrid.new size_x size_y layout_id
  let gc : GrowConfig := ⟨grow_x, grow_y, grow_dir, ⟨0, 0⟩⟩
  .ok { base with grow_config := some gc }

inductive NavigationDirective where
  | Button (b : Button)
  | Direction (d : Direction)
  | Noop
deriving DecidableEq, Repr

inductive NavigateAcrossBundle where
  | NavigateToParent (frac : Frac × Frac) (directive : NavigationDirective) (layout_id : String)
  | NavigateToChild (frac : Frac × Frac) (directive : NavigationDirective)
deriving DecidableEq, Repr

inductive NavigationResult where
  | WithinLayout (fid : String)
  | AcrossLayout (fid : String) (node : Nat)
  | NoNextItem
deriving DecidableEq, Repr

/-- `LayoutGrid::set_point`. -/
def LayoutGrid.set_point (a : Arena) (i : Nat) (x y : Nat) : Res Arena := do
  let self ← getNode a i
  if !self.grid.within_bounds (x : Int) (y : Int) then
    throw (.fail "point is outside of the bounds")
  .ok (setNode a i { self with layout_state := some ⟨(x : Int), (y : Int)⟩ })

/-- `LayoutGrid::current_item`.  Stored focus points are non-negative
(they are only ever written from `usize` casts), so `Int.toNat` models the
`as usize` casts. -/
def LayoutGrid.current_item (a : Arena) (i : Nat) : Res (String × Rect) := do
  let self ← getNode a i
  match self.layout_state with
  | none => throw (.fail "no layout state")
  | some curr_point =>
    match ← self.grid.at' curr_point.x.toNat curr_point.y.toNat with
    | some (.Element id rect) => .ok (id, rect)
    | some (.Sublayout _ _) => throw (.fail "is a sublayout, cannot set focus")
    | none => throw (.fail "No element at")

/-- `LayoutGrid::insert_to_growable_grid`.  `cx`/`cy` abbreviate the
`current_grow_point.{x,y} as usize` casts that the source repeats inline. -/
def LayoutGrid.insert_to_growable_grid (self : LayoutGrid) (focus_id : String) :
    Res LayoutGrid := do
  match self.grow_config with
  | none => throw (.fail "no grow_config set for layoutId")
  | some gc => do
    let cx := gc.current_grow_point.x.toNat
    let cy := gc.current_grow_point.y.toNat
    let first_rect ← match gc.grow_direction with
      | .GrowX => Rect.new cx (cx + gc.item_x - 1) cy cy
      | .GrowY => Rect.new cx cx cy (cy + gc.item_y - 1)
    let (g, new_rect) ←
      if !self.grid.within_bounds_point first_rect.top_left then do
        let wrapped ← match gc.grow_direction with
          | .GrowX => Rect.new 0 gc.item_x cy (cy + gc.item_y)
          | .GrowY => Rect.new cx (cx + gc.item_x) 0 gc.item_y
        if !self.grid.within_bounds_point wrapped.top_left then do
          let g ← match gc.grow_direction with
            | .GrowX => self.grid.expand self.grid.x_size (self.grid.y_size + gc.item_y)
            | .GrowY => self.grid.expand (self.grid.x_size + gc.item_x) self.grid.y_size
          pure (g, wrapped)
        else pure (self.grid, wrapped)
      else pure (self.grid, first_rect)
    let g ← g.fill new_rect (GridItem.Element focus_id new_rect)
    let gc' := match gc.grow_direction with
      | .GrowX => { gc with current_grow_point := Point.mk ((new_rect.x_end : Int) + 1) (new_rect.y_end : Int) }
      | .GrowY => { gc with current_grow_point := Point.mk (new_rect.x_end : Int) ((new_rect.y_end : Int) + 1) }
    .ok { self with grid := g, grow_config := some gc' }

/-- The special-handler lookup at the top of `LayoutGrid::navigate`: only a
`Button` directive can trigger a registered `SpecialHandlerAction`. -/
def LayoutGrid.specialOf (self : LayoutGrid) : NavigationDirective → Option SpecialHandlerAction
  | .Button b => self.special_handler.lookup b
  | _ => none

/-- The bundle of mutually recursive navigation procedures of `LayoutGrid`,
tied by fuel in `navFns`.  `primary_scan`, `side_scan` and `side_probe` are
the three loops inside `LayoutGrid::navigate` (primary while-loop, outer
sideways while-loop, inner per-direction while-loop). -/
structure NavFns where
  navigate : Arena → Nat → NavigationDirective → Res (Arena × NavigationResult)
  try_navigate_to_point : Arena → Nat → Nat → Nat → NavigationDirective →
    Res (Arena × Option NavigationResult)
  try_navigate_out : Arena → Nat → Point → NavigationDirective → Res (Arena × NavigationResult)
  navigate_into : Arena → Nat → NavigateAcrossBundle → Res (Arena × NavigationResult)
  primary_scan : Arena → Nat → Point → Int → Int → NavigationDirective →
    Res (Arena × Option NavigationResult)
  side_scan : Arena → Nat → Point → Int → Int → Direction → NavigationDirective →
    Res (Arena × Option NavigationResult)
  side_probe : Arena → Nat → Point → Int → Int → NavigationDirective →
    Res (Arena × Option NavigationResult)

/-- Body of `LayoutGrid::try_navigate_to_point`. -/
def tryNavigateToPointF (f : NavFns) (a : Arena) (i x y : Nat)
    (directive : NavigationDirective) : Res (Arena × Option NavigationResult) := do
  let self ← getNode a i
  match ← self.grid.at' x y with
  | none => .ok (a, none)
  | some (.Element focus_id _) => do
    let a ← LayoutGrid.set_point a i x y
    .ok (a, some (.WithinLayout focus_id))
  | some (.Sublayout child rect) => do
    let x_in : Frac := ⟨(x : Int) - (rect.x_start : Int), (rect.x_end : Int) - (rect.x_start : Int)⟩
    let y_in : Frac := ⟨(y : Int) - (rect.y_start : Int), (rect.y_end : Int) - (rect.y_start : Int)⟩
    match ← f.navigate_into a child (.NavigateToChild (x_in, y_in) directive) with
    | (a, .WithinLayout s) => .ok (a, some (.AcrossLayout s child))
    | (a, .AcrossLayout s w) => .ok (a, some (.AcrossLayout s w))
    | (a, .NoNextItem) => .ok (a, some .NoNextItem)

/-- The primary scan loop of `LayoutGrid::navigate` ("Check for element in
a line"). -/
def primaryScanF (f : NavFns) (a : Arena) (i : Nat) (next : Point) (x_dir y_dir : Int)
    (directive : NavigationDirective) : Res (Arena × Option NavigationResult) := do
  let self ← getNode a i
  if self.grid.within_bounds next.x next.y then
    match ← f.try_navigate_to_point a i next.x.toNat next.y.toNat directive with
    | (a, some s) => .ok (a, some s)
    | (a, none) => f.primary_scan a i (next.add x_dir y_dir) x_dir y_dir directive
  else .ok (a, none)

/-- The inner sideways probe loop of `LayoutGrid::navigate`; a `Sublayout`
occupant breaks out of the probe ("Prohibits sublayout when doing sideway
navigation"). -/
def sideProbeF (f : NavFns) (a : Arena) (i : Nat) (dir_point : Point) (sx sy : Int)
    (directive : NavigationDirective) : Res (Arena × Option NavigationResult) := do
  let self ← getNode a i
  if self.grid.within_bounds dir_point.x dir_point.y then do
    match ← self.grid.at' dir_point.x.toNat dir_point.y.toNat with
    | some (.Sublayout _ _) => .ok (a, none)
    | _ =>
      match ← f.try_navigate_to_point a i dir_point.x.toNat dir_point.y.toNat directive with
      | (a, some s) => .ok (a, some s)
      | (a, none) => f.side_probe a i (dir_point.add sx sy) sx sy directive
  else .ok (a, none)

/-- The outer sideways scan loop of `LayoutGrid::navigate`: for each point
along the primary line, probe both perpendicular directions. -/
def sideScanF (f : NavFns) (a : Arena) (i : Nat) (next : Point) (x_dir y_dir : Int)
    (d : Direction) (directive : NavigationDirective) : Res (Arena × Option NavigationResult) := do
  let self ← getNode a i
  if self.grid.within_bounds next.x next.y then do
    let (dir_a, dir_b) := d.as_side_dir_vectors
    match ← f.side_probe a i (next.add dir_a.1 dir_a.2) dir_a.1 dir_a.2 directive with
    | (a, some s) => .ok (a, some s)
    | (a, none) =>
      match ← f.side_probe a i (next.add dir_b.1 dir_b.2) dir_b.1 dir_b.2 directive with
      | (a, some s) => .ok (a, some s)
      | (a, none) => f.side_scan a i (next.add x_dir y_dir) x_dir y_dir d directive
  else .ok (a, none)

/-- Body of `LayoutGrid::try_navigate_out`. -/
def tryNavigateOutF (f : NavFns) (a : Arena) (i : Nat) (out_from : Point)
    (directive : NavigationDirective) : Res (Arena × NavigationResult) := do
  let self ← getNode a i
  match self.parent with
  | some p => do
    let x_out : Frac := ⟨out_from.x, (self.grid.x_size : Int)⟩
    let y_out : Frac := ⟨out_from.y, (self.grid.y_size : Int)⟩
    match ← f.navigate_into a p (.NavigateToParent (x_out, y_out) directive self.layout_id) with
    | (a, .WithinLayout s) => .ok (a, .AcrossLayout s p)
    | (a, .AcrossLayout s w) => .ok (a, .AcrossLayout s w)
    | (a, .NoNextItem) => .ok (a, .NoNextItem)
  | none => .ok (a, .NoNextItem)

/-- Body of `LayoutGrid::navigate_into`.  In the `NavigateToChild` case the
source computes `(self.grid.x_size-1) * in_x as usize`: the `as usize` cast
binds tighter than the multiplication, so the fraction is truncated to an
integer before being multiplied. -/
def navigateIntoF (f : NavFns) (a : Arena) (i : Nat)
    (bundle : NavigateAcrossBundle) : Res (Arena × NavigationResult) := do
  let self ← getNode a i
  match bundle with
  | .NavigateToParent (exit_x, exit_y) directive layout_id => do
    match self.sublayouts.lookup layout_id with
    | none => throw (.fail "unexpected layout arrangement")
    | some (.Element _ _) => throw (.fail "unexpected element when looking for sublayout")
    | some (.Sublayout _ rect) => do
      let px := (Frac.scale ((rect.x_end : Int) - (rect.x_start : Int)) exit_x).toUsize
      let py := (Frac.scale ((rect.y_end : Int) - (rect.y_start : Int)) exit_y).toUsize
      let a ← LayoutGrid.set_point a i px py
      let self ← getNode a i
      let p ← match self.layout_state with
        | some p => pure p
        | none => throw Err.panic
      match ← f.try_navigate_to_point a i p.x.toNat p.y.toNat directive with
      | (a, some r) => .ok (a, r)
      | (a, none) => f.navigate a i directive
  | .NavigateToChild (in_x, in_y) directive => do
    let x := (self.grid.x_size - 1) * in_x.toUsize
    let y := (self.grid.y_size - 1) * in_y.toUsize
    let a ← LayoutGrid.set_point a i x y
    match ← f.try_navigate_to_point a i x y directive with
    | (a, some r) => .ok (a, r)
    | (a, none) => f.navigate a i directive

/-- Body of `LayoutGrid::navigate`. -/
def navigateF (f : NavFns) (a : Arena) (i : Nat)
    (directive : NavigationDirective) : Res (Arena × NavigationResult) := do
  let self ← getNode a i
  match self.specialOf directive with
  | some .NavigateOutRight => do
    let corner : Point := ⟨(self.grid.x_size : Int) - 1, 0⟩
    let a ← LayoutGrid.set_point a i corner.x.toNat corner.y.toNat
    f.navigate a i (.Direction .Left)
  | some .NavigateOutLeft => do
    let corner : Point := ⟨0, 0⟩
    let a ← LayoutGrid.set_point a i corner.x.toNat corner.y.toNat
    f.navigate a i (.Direction .Right)
  | none =>
    match directive with
    | .Direction d => do
      let corner ← match LayoutGrid.current_item a i with
        | .ok (_, rect) =>
          match d with
          | .Up | .Left => pure rect.top_left
          | .Down | .Right => pure rect.bottom_right
        | .error _ =>
          match self.layout_state with
          | some p => pure (Point.mk p.x p.y)
          | none => throw Err.panic
      let (x_dir, y_dir) := d.as_dir_vector
      let next := corner.add x_dir y_dir
      if !self.grid.within_bounds next.x next.y then
        f.try_navigate_out a i corner directive
      else do
        match ← f.primary_scan a i next x_dir y_dir directive with
        | (a, some s) => .ok (a, s)
        | (a, none) => do
          match ← f.side_scan a i (corner.add x_dir y_dir) x_dir y_dir d directive with
          | (a, some s) => .ok (a, s)
          | (a, none) => .ok (a, .NoNextItem)
    | _ => do
      let r ← LayoutGrid.current_item a i
      .ok (a, .WithinLayout r.1)

/-- Fuel-zero bundle: every procedure reports fuel exhaustion. -/
def navFuelZero : NavFns where
  navigate := fun _ _ _ => .error (.fail "out of fuel")
  try_navigate_to_point := fun _ _ _ _ _ => .error (.fail "out of fuel")
  try_navigate_out := fun _ _ _ _ => .error (.fail "out of fuel")
  navigate_into := fun _ _ _ => .error (.fail "out of fuel")
  primary_scan := fun _ _ _ _ _ _ => .error (.fail "out of fuel")
  side_scan := fun _ _ _ _ _ _ _ => .error (.fail "out of fuel")
  side_probe := fun _ _ _ _ _ _ => .error (.fail "out of fuel")

/-- One recursion level: every procedure body calls the previous level. -/
def navStep (f : NavFns) : NavFns where
  navigate := navigateF f
  try_navigate_to_point := tryNavigateToPointF f
  try_navigate_out := tryNavigateOutF f
  navigate_into := navigateIntoF f
  primary_scan := primaryScanF f
  side_scan := sideScanF f
  side_probe := sideProbeF f

/-- The navigation procedures at a given fuel. -/
def navFns : Nat → NavFns
  | 0 => navFuelZero
  | fuel + 1 => navStep (navFns fuel)

/-- `LayoutGrid::navigate`, at a given fuel. -/
def LayoutGrid.navigate (fuel : Nat) (a : Arena) (i : Nat)
    (directive : NavigationDirective) : Res (Arena × NavigationResult) :=
  (navFns fuel).navigate a i directive

/-- `NavigationController`: the facade.  `root_layout` and
`current_layout_ref` are arena indices. -/
structure NavigationController where
  root_layout : Nat
  current_layout_ref : Nat
  current_focus_id : Option String
deriving DecidableEq, Repr

/-- `NavigationController::navigate`. -/
def NavigationController.navigate (c : NavigationController) (fuel : Nat) (a : Arena)
    (directive : NavigationDirective) : Res (Arena × NavigationController × NavigationResult) := do
  match ← LayoutGrid.navigate fuel a c.current_layout_ref directive with
  | (a, .WithinLayout s) =>
    .ok (a, { c with current_focus_id := some s }, .WithinLayout s)
  | (a, .AcrossLayout s sub) =>
    .ok (a, { c with current_layout_ref := sub, current_focus_id := some s }, .AcrossLayout s sub)
  | (a, .NoNextItem) => .ok (a, c, .NoNextItem)

/-- `NavigationController::new`: unconditionally points the root's focus at
`(0, 0)` ("Layout must have 0, 0 to be something as default") and issues a
`Noop` directive. -/
def NavigationController.new (fuel : Nat) (a : Arena) (root : Nat) :
    Res (Arena × NavigationController) := do
  let r ← getNode a root
  let a := setNode a root { r with layout_state := some ⟨0, 0⟩ }
  let c : NavigationController := ⟨root, root, none⟩
  let (a, c, _) ← c.navigate fuel a .Noop
  .ok (a, c)

/-- `LayoutGridBuilder`.  Recursive (sub-builders nest), hence an inductive
with one constructor; the fields are, in order: `size_x`, `size_y`,
`rects`, `sublayouts`, `layout_id`, `is_root_builder`, `growable_config`. -/
inductive LayoutGridBuilder where
  | mk (size_x size_y : Nat) (rects : List (Rect × String))
      (sublayouts : List (Rect × String × LayoutGridBuilder))
      (layout_id : String) (is_root_builder : Bool)
      (growable_config : Option (Nat × Nat × GrowDirection))

/-- `LayoutGridBuilder::new`. -/
def LayoutGridBuilder.new (size_x size_y : Nat) (layout_id : String) : LayoutGridBuilder :=
  .mk size_x size_y [] [] layout_id true none

/-- `LayoutGridBuilder::new_sub`. -/
def LayoutGridBuilder.new_sub (size_x size_y : Nat) (layout_id : String) : LayoutGridBuilder :=
  .mk size_x size_y [] [] layout_id false none

/-- `LayoutGridBuilder::add_element`. -/
def LayoutGridBuilder.add_element : LayoutGridBuilder → Rect → String → Res LayoutGridBuilder
  | .mk sx sy rects subs lid root gcfg, rect, fid =>
    if gcfg.isSome then .error (.fail "can't add when elements are added")
    else .ok (.mk sx sy (rects ++ [(rect, fid)]) subs lid root gcfg)

/-- `LayoutGridBuilder::set_growable`. -/
def LayoutGridBuilder.set_growable :
    LayoutGridBuilder → Nat → Nat → GrowDirection → Res LayoutGridBuilder
  | .mk sx sy rects subs lid root _, gx, gy, dir =>
    if rects ≠ [] then .error (.fail "can't set growable when elements are added")
    else .ok (.mk sx sy rects subs lid root (some (gx, gy, dir)))

/-- `LayoutGridBuilder::with_sublayout` followed by configuring the child
builder through the returned handle: the fully configured child builder is
passed in directly (it stems from `new_sub`, as `with_sublayout` creates
it). -/
def LayoutGridBuilder.attach_sublayout :
    LayoutGridBuilder → Rect → String → LayoutGridBuilder → LayoutGridBuilder
  | .mk sx sy rects subs lid root gcfg, rect, sub_id, sub =>
    .mk sx sy rects (subs ++ [(rect, sub_id, sub)]) lid root gcfg

/-- `HashMap::insert` on the child index: replaces an existing binding. -/
def insertAssoc (l : List (String × GridItem)) (k : String) (v : GridItem) :
    List (String × GridItem) :=
  match l with
  | [] => [(k, v)]
  | (k', v') :: rest => if k' = k then (k, v) :: rest else (k', v') :: insertAssoc rest k v

/-- `LayoutGridBuilder::build_sub`: allocates this node (after filling its
fixed elements), then builds each sub-builder with a back-reference, fills
the child's rect with the shared `Sublayout` occupant and registers it in
the child index.  The fuel bounds the nesting depth. -/
def buildSub (fuel : Nat) (b : LayoutGridBuilder) (parent : Option Nat) (a : Arena) :
    Res (Arena × Nat) :=
  match fuel with
  | 0 => .error (.fail "out of fuel")
  | fuel + 1 =>
    match b with
    | .mk sx sy rects subs lid _root gcfg => do
      let this0 ← match gcfg with
        | some (gx, gy, dir) => LayoutGrid.new_growable sx sy lid gx gy dir
        | none => LayoutGrid.new sx sy lid
      let this0 := { this0 with parent := parent }
      let g ← rects.foldlM (fun g (p : Rect × String) => g.fill p.1 (GridItem.Element p.2 p.1))
        this0.grid
      let a := a ++ [{ this0 with grid := g }]
      let idx := a.length - 1
      let a ← subs.foldlM (fun a (s : Rect × String × LayoutGridBuilder) => do
          let (a, child) ← buildSub fuel s.2.2 (some idx) a
          let pn ← getNode a idx
          let e := GridItem.Sublayout child s.1
          let g ← pn.grid.fill s.1 e
          .ok (setNode a idx { pn with grid := g, sublayouts := insertAssoc pn.sublayouts s.2.1 e }))
        a
      .ok (a, idx)

/-- `LayoutGridBuilder::build`: root builders only. -/
def LayoutGridBuilder.build (b : LayoutGridBuilder) (fuel : Nat) : Res (Arena × Nat) :=
  match b with
  | .mk _ _ _ _ _ root _ =>
    if !root then .error (.fail "must be called from the root builder")
    else buildSub fuel b none []

/-- The `simple_layout` fixture of the source's tests: 10x5 root "L0" with
"0_alpha" at rect (0,1,0,1) and "0_beta" at rect (2,2,0,1). -/
def simple_layout : Res (Arena × Nat) := do
  let r1 ← Rect.new 0 1 0 1
  let r2 ← Rect.new 2 2 0 1
  let b := LayoutGridBuilder.new 10 5 "L0"
  let b ← b.add_element r1 "0_alpha"
  let b ← b.add_element r2 "0_beta"
  b.build 10

/-- The `nested_layout` fixture of the source's tests: `simple_layout` plus
a 7x10 sublayout "L1" at rect (0,9,2,4) holding "1_alpha" at (0,0,0,9) and
"1_beta" at (1,1,0,9). -/
def nested_layout : Res (Arena × Nat) := do
  let r1 ← Rect.new 0 1 0 1
  let r2 ← Rect.new 2 2 0 1
  let rs ← Rect.new 0 9 2 4
  let s1 ← Rect.new 0 0 0 9
  let s2 ← Rect.new 1 1 0 9
  let sub := LayoutGridBuilder.new_sub 7 10 "L1"
  let sub ← sub.add_element s1 "1_alpha"
  let sub ← sub.add_element s2 "1_beta"
  let b := LayoutGridBuilder.new 10 5 "L0"
  let b ← b.add_element r1 "0_alpha"
  let b ← b.add_element r2 "0_beta"
  let b := b.attach_sublayout rs "L1" sub
  b.build 10

/-! ## Concrete fixtures used by individual claims -/

/-- A 10x5 layout node with elements "e00" at cell (0,0) and "e42" at cell
(4,2), used to exercise the child side of the parent-to-child handoff. -/
def childEntryArena : Res Arena := do
  let g ← Grid2D.new GridItem 10 5
  let r00 ← Rect.new 0 0 0 0
  let r42 ← Rect.new 4 4 2 2
  let g ← g.fill r00 (.Element "e00" r00)
  let g ← g.fill r42 (.Element "e42" r42)
  .ok [{ grid := g, layout_state := none, special_handler := [], parent := none,
         layout_id := "C", sublayouts := [], grow_config := none }]

/-- A 6x6 parent node whose child index maps "L1" to a `Sublayout` occupant
with rect (2,4,3,5), with elements "p00" at cell (0,0) and "p23" at cell
(2,3), used to exercise the child-to-parent exit. -/
def parentExitArena : Res Arena := do
  let g ← Grid2D.new GridItem 6 6
  let r00 ← Rect.new 0 0 0 0
  let r23 ← Rect.new 2 2 3 3
  let rsub ← Rect.new 2 4 3 5
  let g ← g.fill r00 (.Element "p00" r00)
  let g ← g.fill r23 (.Element "p23" r23)
  .ok [{ grid := g, layout_state := none, special_handler := [], parent := none,
         layout_id := "P", sublayouts := [("L1", .Sublayout 1 rsub)], grow_config := none }]

/-- A 4x4 root "P" with element "a" at rect (0,1,0,1) and an empty 2x2
sublayout "C" at rect (2,3,0,3), built through the builder. -/
def emptyChildLayout : Res (Arena × Nat) := do
  let ra ← Rect.new 0 1 0 1
  let rs ← Rect.new 2 3 0 3
  let sub := LayoutGridBuilder.new_sub 2 2 "C"
  let b := LayoutGridBuilder.new 4 4 "P"
  let b ← b.add_element ra "a"
  let b := b.attach_sublayout rs "C" sub
  b.build 10

/-- Spec-side description of one sideways probe (spec 4.2 step 5): walk
outward from the primary line; the grid boundary ends the probe, a
`Sublayout` occupant blocks it, and the first `Element` wins.  The inner
`match fuel` on the `Element` branch mirrors the fuel tick of the
`try_navigate_to_point` call that the implementation performs there, so
that the two sides run out of fuel at exactly the same inputs. -/
def sideProbeFirst (g : Grid2D GridItem) : Nat → Point → Int → Int →
    Res (Option (Nat × Nat × String))
  | 0, _, _, _ => .error (.fail "out of fuel")
  | fuel + 1, pt, sx, sy =>
    if g.within_bounds pt.x pt.y then
      match g.at' pt.x.toNat pt.y.toNat with
      | .error e => .error e
      | .ok (some (.Sublayout _ _)) => .ok none
      | .ok (some (.Element fid _)) =>
        if fuel = 0 then .error (.fail "out of fuel")
        else .ok (some (pt.x.toNat, pt.y.toNat, fid))
      | .ok none => sideProbeFirst g fuel (pt.add sx sy) sx sy
    else .ok none

/-- Spec-side description of the whole secondary (side) scan: re-walk the
primary line and, at each step, probe both perpendicular directions; the
first `Element` hit across either side, at any primary-line offset, wins. -/
def sideScanFirst (g : Grid2D GridItem) : Nat → Point → Int → Int → Direction →
    Res (Option (Nat × Nat × String))
  | 0, _, _, _, _ => .error (.fail "out of fuel")
  | fuel + 1, next, x_dir, y_dir, d =>
    if g.within_bounds next.x next.y then
      let (dir_a, dir_b) := d.as_side_dir_vectors
      match sideProbeFirst g fuel (next.add dir_a.1 dir_a.2) dir_a.1 dir_a.2 with
      | .error e => .error e
      | .ok (some hit) => .ok (some hit)
      | .ok none =>
        match sideProbeFirst g fuel (next.add dir_b.1 dir_b.2) dir_b.1 dir_b.2 with
        | .error e => .error e
        | .ok (some hit) => .ok (some hit)
        | .ok none => sideScanFirst g fuel (next.add x_dir y_dir) x_dir y_dir d
    else .ok none

/-- Node `i` of the arena has its focus point set, in bounds, on a cell
holding `Element fid` — the focus invariant of spec section 3. -/
def FocusOnElement (a : Arena) (i : Nat) (fid : String) : Prop :=
  ∃ (n : LayoutGrid) (x y : Nat) (rect : Rect), getNode a i = .ok n ∧
    n.layout_state = some ⟨(x : Int), (y : Int)⟩ ∧
    n.grid.within_bounds (x : Int) (y : Int) = true ∧
    n.grid.at' x y = .ok (some (.Element fid rect))

/-- A single 2x1 layout node holding element "w" at cell (0,0), with its
focus point set there. -/
def noopLayout : LayoutGrid :=
  { grid := ⟨2, 1, [[some (.Element "w" ⟨0, 0, 0, 0⟩)], [none]]⟩,
    layout_state := some ⟨0, 0⟩, special_handler := [], parent := none,
    layout_id := "W", sublayouts := [], grow_config := none }

/-- The parent node of the child-to-parent exit witness: 6x6 grid, "p00" at
cell (0,0), "p23" at cell (2,3), child index "L1" -> rect (2,4,3,5). -/
def parentExitNode : LayoutGrid :=
  { grid := ⟨6, 6,
      [[some (.Element "p00" ⟨0, 0, 0, 0⟩), none, none, none, none, none],
       List.replicate 6 none,
       [none, none, none, some (.Element "p23" ⟨2, 2, 3, 3⟩), none, none],
       List.replicate 6 none, List.replicate 6 none, List.replicate 6 none]⟩,
    layout_state := none, special_handler := [], parent := none,
    layout_id := "P", sublayouts := [("L1", .Sublayout 1 ⟨2, 4, 3, 5⟩)], grow_config := none }

/-- The arena of `simple_layout` after `NavigationController::new` has set
the initial focus. -/
def simpleReady : Arena :=
  match (do
    let (a, root) ← simple_layout
    let (a2, _) ← NavigationController.new 40 a root
    .ok a2 : Res Arena) with
  | .ok a => a
  | .error _ => []

/-- The arena after navigating Right once on `simpleReady`. -/
def simpleAfterRight : Arena :=
  match LayoutGrid.navigate 40 simpleReady 0 (.Direction .Right) with
  | .ok pr => pr.1
  | .error _ => []

/-! ## Claim theorems -/

/-- C1: the claim states that `navigate_into(NavigateToChild)` with entry
fraction `(fx, fy)`, each in `[0, 1)`, sets the child's focus point to
`(floor((x_size - 1) * fx), floor((y_size - 1) * fy))`.  The code instead
computes `(x_size - 1) * (fx as usize)`, truncating the fraction before the
multiplication.  Here, on a 10x5 child with fraction `(1/2, 1/2)`, the
claimed entry cell is `(floor(9/2), floor(4/2)) = (4, 2)` (which holds
element "e42"), but the run lands on `(0, 0)` and resolves "e00". -/
theorem c1_child_entry_truncates_fraction :
    (do
      let a ← childEntryArena
      let (a, r) ← (navFns 5).navigate_into a 0
        (.NavigateToChild (⟨1, 2⟩, ⟨1, 2⟩) .Noop)
      let n ← getNode a 0
      .ok (r, n.layout_state) : Res (NavigationResult × Option Point))
      = .ok (.WithinLayout "e00", some ⟨0, 0⟩)
    ∧ (Point.mk 0 0 ≠ Point.mk 4 2) := by
  exact ⟨by decide, by decide⟩

/-- C2, counterexample: the claim states that `navigate_into
(NavigateToParent)` sets the parent's focus point to
`(rect.x_start + (rect.x_end - rect.x_start) * fx,
  rect.y_start + (rect.y_end - rect.y_start) * fy)`.  With the registered
sublayout rect `(2,4,3,5)` and exit fraction `(0, 0)` that is `(2, 3)`
(which holds element "p23"), but the run sets the focus point to `(0, 0)` —
the source never adds the rect origin — and resolves "p00". -/
theorem c2_parent_exit_counterexample :
    (do
      let a ← parentExitArena
      let (a, r) ← (navFns 5).navigate_into a 0
        (.NavigateToParent (⟨0, 1⟩, ⟨0, 1⟩) .Noop "L1")
      let n ← getNode a 0
      .ok (r, n.layout_state) : Res (NavigationResult × Option Point))
      = .ok (.WithinLayout "p00", some ⟨0, 0⟩)
    ∧ (Point.mk 0 0 ≠ Point.mk 2 3) := by
  exact ⟨by decide, by decide⟩

/-- C3: the claim states that after a successful `expand(nx, ny)` the grid
has dimensions `(nx, ny)` and `at` succeeds (returning empty) on every new
in-bounds cell.  The source never updates the `x_size`/`y_size` fields, so
after expanding a 1x1 grid to 2x2 the recorded dimensions are still
`(1, 1)` and `at(1, 1)` fails with "invalid coordinate" even though the
backing storage did grow to 2x2. -/
theorem c3_expand_leaves_sizes_stale :
    (do
      let g ← Grid2D.new String 1 1
      let g ← g.expand 2 2
      .ok (g.x_size, g.y_size) : Res (Nat × Nat)) = .ok (1, 1)
    ∧ (do
      let g ← Grid2D.new String 1 1
      let g ← g.expand 2 2
      .ok g.grid : Res (List (List (Option String))))
      = .ok [[none, none], [none, none]]
    ∧ (do
      let g ← Grid2D.new String 1 1
      let g ← g.expand 2 2
      g.at' 1 1 : Res (Option String)) = .error (.fail "invalid coordinate") := by
  exact ⟨by decide, by decide, by decide⟩

/-- C4: the claim states that `fill(rect, occupant)` returns an error
(rather than panicking) whenever the rect exceeds the grid bounds.  The
bounds check compares the inclusive `x_end` with `>` against `x_size`, so
the rect `(0,2,0,0)` on a 2x2 grid passes the check and the write loop then
indexes `grid[2]`, a panic. -/
theorem c4_fill_boundary_panics :
    (do
      let g ← Grid2D.new String 2 2
      let r ← Rect.new 0 2 0 0
      g.fill r "o" : Res (Grid2D String))
      = .error .panic := by
  decide

/-- C5: the claim states that N sequential inserts into an initially empty
growable region all succeed, advancing along the growth axis and expanding
once per filled band.  On a 4x2 `GrowX` grid with item size (2,1), inserts
"a" and "b" fill the first band; the third insert computes the wrap rect
`(0, item_x, cy, cy + item_y) = (0,2,0,1)`, which overlaps the first band
(its y-range starts at the old row), so the insert fails with
"overlapping rect" instead of wrapping, and no expansion ever happens. -/
theorem c5_third_insert_fails :
    (do
      let n ← LayoutGrid.new_growable 4 2 "G" 2 1 .GrowX
      let n ← n.insert_to_growable_grid "a"
      let n ← n.insert_to_growable_grid "b"
      n.insert_to_growable_grid "c" : Res LayoutGrid)
      = .error (.fail "overlapping rect") := by
  decide

/-- C6: on the two-level fixture (root "L0" 10x5 with "0_alpha" and
"0_beta", and sublayout "L1" 7x10 at rect (0,9,2,4) with "1_alpha" and
"1_beta"), starting from focus "0_alpha", `navigate(Down)` returns
`AcrossLayout("1_alpha", child)` and a subsequent `navigate(Up)` from
inside the child returns `AcrossLayout("0_alpha", root)`; node 0 is the
root "L0" and node 1 the child "L1". -/
theorem c6_nested_down_then_up :
    (do
      let (a, root) ← nested_layout
      let (a, c) ← NavigationController.new 40 a root
      let (a, c, r1) ← c.navigate 40 a (.Direction .Down)
      let (a, c, r2) ← c.navigate 40 a (.Direction .Up)
      let n0 ← getNode a 0
      let n1 ← getNode a 1
      .ok (root, r1, r2, c.current_focus_id, n0.layout_id, n1.layout_id)
      : Res (Nat × NavigationResult × NavigationResult × Option String × String × String))
      = .ok (0, .AcrossLayout "1_alpha" 1, .AcrossLayout "0_alpha" 0,
             some "0_alpha", "L0", "L1") := by
  decide

/-- C7, counterexample: the claim states that at the end of each top-level
navigation operation every node's focus point, when set, addresses a cell
holding an Element.  On a built tree (root "P" 4x4 with element "a" and an
empty 2x2 sublayout "C"), one top-level `navigate(Right)` returns
`NoNextItem` but leaves the child node "C" with its focus point set to
`(0, 0)`, a cell that is empty. -/
theorem c7_focus_left_on_empty_cell :
    (do
      let (a, root) ← emptyChildLayout
      let (a, c) ← NavigationController.new 40 a root
      let (a, _, r) ← c.navigate 40 a (.Direction .Right)
      let child ← getNode a 1
      .ok (r, child.layout_id, child.layout_state, child.grid.at' 0 0)
      : Res (NavigationResult × String × Option Point × Res (Option GridItem)))
      = .ok (.NoNextItem, "C", some ⟨0, 0⟩, .ok none) := by
  decide

/-! ## Basic lemmas about the embedding -/

theorem res_bind_ok {α β : Type} (x : α) (f : α → Res β) :
    ((Except.ok x : Res α) >>= f) = f x := rfl

theorem res_bind_error {α β : Type} (e : Err) (f : α → Res β) :
    ((Except.error e : Res α) >>= f) = .error e := rfl

theorem res_pure {α : Type} (x : α) : (pure x : Res α) = .ok x := rfl

theorem navFns_succ (fuel : Nat) : navFns (fuel + 1) = navStep (navFns fuel) := rfl

theorem getNode_lt {a : Arena} {i : Nat} {n : LayoutGrid} (h : getNode a i = .ok n) :
    i < a.length := by
  by_contra hlt
  have hg : a[i]? = none := List.getElem?_eq_none (Nat.le_of_not_lt hlt)
  simp [getNode, hg] at h

theorem getNode_get? {a : Arena} {i : Nat} {n : LayoutGrid} (h : getNode a i = .ok n) :
    a[i]? = some n := by
  cases hg : a[i]? with
  | none => simp [getNode, hg] at h
  | some m => simp [getNode, hg] at h; rw [h]

theorem getNode_setNode_self {a : Arena} {i : Nat} {n : LayoutGrid}
    (h : getNode a i = .ok n) (v : LayoutGrid) : getNode (setNode a i v) i = .ok v := by
  have hi : i < a.length := getNode_lt h
  have hg : (a.set i v)[i]? = some v := List.getElem?_set_eq_of_lt v hi
  simp [getNode, setNode, hg]

theorem setNode_setNode_self (a : Arena) (i : Nat) (v w : LayoutGrid) :
    setNode (setNode a i v) i w = setNode a i w := by
  simp [setNode, List.set_set]

theorem within_bounds_nat_iff {T : Type} (g : Grid2D T) (x y : Nat) :
    g.within_bounds (x : Int) (y : Int) = true ↔ x < g.x_size ∧ y < g.y_size := by
  simp [Grid2D.within_bounds]

theorem within_bounds_spec {T : Type} {g : Grid2D T} {x y : Int}
    (h : g.within_bounds x y = true) :
    0 ≤ x ∧ x < (g.x_size : Int) ∧ 0 ≤ y ∧ y < (g.y_size : Int) := by
  simp [Grid2D.within_bounds] at h
  omega

theorem cellGet_of_wf {T : Type} {g : Grid2D T} (hwf : g.wf) {x y : Nat}
    (hx : x < g.x_size) (hy : y < g.y_size) : ∃ c, g.cellGet x y = .ok c := by
  obtain ⟨hlen, hcols⟩ := hwf
  have hx' : x < g.grid.length := hlen ▸ hx
  have hgx : g.grid[x]? = some g.grid[x] := List.getElem?_eq_getElem hx'
  have hmem : g.grid[x] ∈ g.grid := List.getElem_mem hx'
  have hylen : y < g.grid[x].length := by rw [hcols _ hmem]; exact hy
  have hgy : g.grid[x][y]? = some (g.grid[x][y]) := List.getElem?_eq_getElem hylen
  refine ⟨g.grid[x][y], ?_⟩
  simp [Grid2D.cellGet, hgx, hgy]

theorem at'_eq_cellGet {T : Type} (g : Grid2D T) {x y : Nat}
    (hx : x < g.x_size) (hy : y < g.y_size) : g.at' x y = g.cellGet x y := by
  have : ¬(x ≥ g.x_size ∨ y ≥ g.y_size) := by omega
  simp [Grid2D.at', this]

theorem current_item_eq (a : Arena) (i : Nat) (n : LayoutGrid) (h : getNode a i = .ok n) :
    LayoutGrid.current_item a i =
      match n.layout_state with
      | none => .error (.fail "no layout state")
      | some p =>
        (n.grid.at' p.x.toNat p.y.toNat) >>= fun c =>
          match c with
          | some (.Element id rect) => .ok (id, rect)
          | some (.Sublayout _ _) => .error (.fail "is a sublayout, cannot set focus")
          | none => .error (.fail "No element at") := by
  unfold LayoutGrid.current_item
  rw [h, res_bind_ok]
  rfl

theorem navigate_noop_eq (fuel : Nat) (a : Arena) (i : Nat) (n : LayoutGrid)
    (h : getNode a i = .ok n) :
    LayoutGrid.navigate (fuel + 1) a i .Noop =
      (LayoutGrid.current_item a i) >>= fun r => .ok (a, .WithinLayout r.1) := by
  show navigateF (navFns fuel) a i .Noop = _
  unfold navigateF
  rw [h, res_bind_ok]
  rfl

theorem current_item_none (a : Arena) (i : Nat) (n : LayoutGrid)
    (h : getNode a i = .ok n) (hls : n.layout_state = none) :
    LayoutGrid.current_item a i = .error (.fail "no layout state") := by
  rw [current_item_eq a i n h, hls]

theorem current_item_some (a : Arena) (i : Nat) (n : LayoutGrid) (p : Point)
    (h : getNode a i = .ok n) (hls : n.layout_state = some p) :
    LayoutGrid.current_item a i =
      (n.grid.at' p.x.toNat p.y.toNat) >>= fun c =>
        match c with
        | some (.Element id rect) => .ok (id, rect)
        | some (.Sublayout _ _) => .error (.fail "is a sublayout, cannot set focus")
        | none => .error (.fail "No element at") := by
  rw [current_item_eq a i n h, hls]

/-- C9: `navigate(Noop)` is a pure state query.  For every node (whose grid
backing store matches its recorded sizes and whose focus point, when set,
is in bounds — both invariants of constructed nodes): when the focus point
is set and addresses an Element, `navigate(Noop)` returns `WithinLayout`
with that focus identifier and the arena unchanged; it fails exactly when
the focus point is unset, or addresses an empty cell or a Sublayout. -/
theorem c9_noop_pure_query (fuel : Nat) (a : Arena) (i : Nat) (n : LayoutGrid)
    (h : getNode a i = .ok n) (hwf : n.grid.wf)
    (hb : ∀ p, n.layout_state = some p → n.grid.within_bounds p.x p.y = true) :
    (∃ p fid rect, n.layout_state = some p ∧
        n.grid.at' p.x.toNat p.y.toNat = .ok (some (.Element fid rect)) ∧
        LayoutGrid.navigate (fuel + 1) a i .Noop = .ok (a, .WithinLayout fid))
    ∨ ((n.layout_state = none
        ∨ (∃ p, n.layout_state = some p ∧ n.grid.at' p.x.toNat p.y.toNat = .ok none)
        ∨ (∃ p c r, n.layout_state = some p ∧
            n.grid.at' p.x.toNat p.y.toNat = .ok (some (.Sublayout c r))))
       ∧ ∃ msg, LayoutGrid.navigate (fuel + 1) a i .Noop = .error (.fail msg)) := by
  cases hls : n.layout_state with
  | none =>
    refine Or.inr ⟨Or.inl rfl, "no layout state", ?_⟩
    rw [navigate_noop_eq fuel a i n h, current_item_none a i n h hls]
    rfl
  | some p =>
    have hbp := within_bounds_spec (hb p hls)
    have hx : p.x.toNat < n.grid.x_size := by omega
    have hy : p.y.toNat < n.grid.y_size := by omega
    obtain ⟨c, hc⟩ := cellGet_of_wf hwf hx hy
    have hat : n.grid.at' p.x.toNat p.y.toNat = .ok c := by
      rw [at'_eq_cellGet n.grid hx hy]; exact hc
    match c with
    | some (.Element fid rect) =>
      refine Or.inl ⟨p, fid, rect, rfl, hat, ?_⟩
      rw [navigate_noop_eq fuel a i n h, current_item_some a i n p h hls, hat]
      rfl
    | some (.Sublayout cc rr) =>
      refine Or.inr ⟨Or.inr (Or.inr ⟨p, cc, rr, rfl, hat⟩), "is a sublayout, cannot set focus", ?_⟩
      rw [navigate_noop_eq fuel a i n h, current_item_some a i n p h hls, hat]
      rfl
    | none =>
      refine Or.inr ⟨Or.inr (Or.inl ⟨p, rfl, hat⟩), "No element at", ?_⟩
      rw [navigate_noop_eq fuel a i n h, current_item_some a i n p h hls, hat]
      rfl

/-- C9 witness: on a concrete single-node arena with focus on element "w",
`navigate(Noop)` succeeds with the unchanged arena. -/
theorem c9_witness :
    ∃ fid, LayoutGrid.navigate 3 [noopLayout] 0 .Noop = .ok ([noopLayout], .WithinLayout fid) := by
  rcases c9_noop_pure_query 2 [noopLayout] 0 noopLayout rfl
      (by exact ⟨rfl, by decide⟩) (fun p hp => by cases hp; decide) with
    ⟨p, fid, rect, _, _, heq⟩ | ⟨_, msg, heq⟩
  · exact ⟨fid, heq⟩
  · rw [show LayoutGrid.navigate 3 [noopLayout] 0 .Noop
        = .ok ([noopLayout], .WithinLayout "w") from by decide] at heq
    cases heq

/-- C10: `NavigationController::new(root)` sets the root's focus point to
`(0, 0)` and issues `Noop`; construction succeeds exactly when cell (0,0)
of the root grid holds an Element, and then the controller's cached focus
identifier is that element's focus identifier (hypotheses: root grid
well-formed with positive dimensions, as `Grid2D::new` guarantees). -/
theorem c10_controller_new (fuel : Nat) (a : Arena) (root : Nat) (n : LayoutGrid)
    (h : getNode a root = .ok n) (hwf : n.grid.wf)
    (hx : 0 < n.grid.x_size) (hy : 0 < n.grid.y_size) :
    (∃ fid rect, n.grid.at' 0 0 = .ok (some (.Element fid rect)) ∧
      NavigationController.new (fuel + 1) a root =
        .ok (setNode a root { n with layout_state := some ⟨0, 0⟩ },
             ⟨root, root, some fid⟩))
    ∨ ((n.grid.at' 0 0 = .ok none ∨ ∃ c r, n.grid.at' 0 0 = .ok (some (.Sublayout c r)))
       ∧ ∃ msg, NavigationController.new (fuel + 1) a root = .error (.fail msg)) := by
  have h' : getNode (setNode a root { n with layout_state := some ⟨0, 0⟩ }) root
      = .ok { n with layout_state := some ⟨0, 0⟩ } := getNode_setNode_self h _
  have hls : ({ n with layout_state := some ⟨0, 0⟩ } : LayoutGrid).layout_state
      = some ⟨0, 0⟩ := rfl
  obtain ⟨c, hc⟩ := cellGet_of_wf (g := n.grid) hwf hx hy
  have hat : n.grid.at' 0 0 = .ok c := by rw [at'_eq_cellGet n.grid hx hy]; exact hc
  have hat' : ({ n with layout_state := some ⟨0, 0⟩ } : LayoutGrid).grid.at'
      (Point.mk 0 0).x.toNat (Point.mk 0 0).y.toNat = .ok c := hat
  have hcur := current_item_some (setNode a root { n with layout_state := some ⟨0, 0⟩ })
    root { n with layout_state := some ⟨0, 0⟩ } ⟨0, 0⟩ h' hls
  rw [hat', res_bind_ok] at hcur
  match c with
  | some (.Element fid rect) =>
    have hnavEq : LayoutGrid.navigate (fuel + 1)
        (setNode a root { n with layout_state := some ⟨0, 0⟩ }) root .Noop
        = .ok (setNode a root { n with layout_state := some ⟨0, 0⟩ }, .WithinLayout fid) := by
      rw [navigate_noop_eq fuel _ root _ h', hcur]
      rfl
    refine Or.inl ⟨fid, rect, hat, ?_⟩
    unfold NavigationController.new NavigationController.navigate
    rw [h]
    simp only [res_bind_ok]
    rw [hnavEq]
    rfl
  | some (.Sublayout cc rr) =>
    have hnavEq : LayoutGrid.navigate (fuel + 1)
        (setNode a root { n with layout_state := some ⟨0, 0⟩ }) root .Noop
        = .error (.fail "is a sublayout, cannot set focus") := by
      rw [navigate_noop_eq fuel _ root _ h', hcur]
      rfl
    refine Or.inr ⟨Or.inr ⟨cc, rr, hat⟩, "is a sublayout, cannot set focus", ?_⟩
    unfold NavigationController.new NavigationController.navigate
    rw [h]
    simp only [res_bind_ok]
    rw [hnavEq]
    rfl
  | none =>
    have hnavEq : LayoutGrid.navigate (fuel + 1)
        (setNode a root { n with layout_state := some ⟨0, 0⟩ }) root .Noop
        = .error (.fail "No element at") := by
      rw [navigate_noop_eq fuel _ root _ h', hcur]
      rfl
    refine Or.inr ⟨Or.inl hat, "No element at", ?_⟩
    unfold NavigationController.new NavigationController.navigate
    rw [h]
    simp only [res_bind_ok]
    rw [hnavEq]
    rfl

/-- C10 witness: constructing the controller on a concrete root whose cell
(0,0) holds element "w" succeeds and caches that focus identifier. -/
theorem c10_witness :
    ∃ fid, NavigationController.new 3 [noopLayout] 0 =
      .ok (setNode [noopLayout] 0 { noopLayout with layout_state := some ⟨0, 0⟩ },
           ⟨0, 0, some fid⟩) := by
  rcases c10_controller_new 2 [noopLayout] 0 noopLayout rfl (by exact ⟨rfl, by decide⟩)
      (by decide) (by decide) with ⟨fid, rect, _, heq⟩ | ⟨_, msg, heq⟩
  · exact ⟨fid, heq⟩
  · rw [show NavigationController.new 3 [noopLayout] 0 =
        .ok (setNode [noopLayout] 0 { noopLayout with layout_state := some ⟨0, 0⟩ },
             ⟨0, 0, some "w"⟩) from by decide] at heq
    cases heq

theorem set_point_ok (a : Arena) (i x y : Nat) (n : LayoutGrid)
    (h : getNode a i = .ok n)
    (hb : n.grid.within_bounds (x : Int) (y : Int) = true) :
    LayoutGrid.set_point a i x y =
      .ok (setNode a i { n with layout_state := some ⟨(x : Int), (y : Int)⟩ }) := by
  unfold LayoutGrid.set_point
  rw [h]
  simp only [res_bind_ok, hb]
  rfl

theorem try_navigate_elem (f : NavFns) (a : Arena) (i x y : Nat) (n : LayoutGrid)
    (fid : String) (erect : Rect) (directive : NavigationDirective)
    (h : getNode a i = .ok n)
    (hcell : n.grid.at' x y = .ok (some (.Element fid erect)))
    (hb : n.grid.within_bounds (x : Int) (y : Int) = true) :
    tryNavigateToPointF f a i x y directive =
      .ok (setNode a i { n with layout_state := some ⟨(x : Int), (y : Int)⟩ },
           some (.WithinLayout fid)) := by
  unfold tryNavigateToPointF
  rw [h]
  simp only [res_bind_ok]
  rw [hcell]
  simp only [res_bind_ok]
  rw [set_point_ok a i x y n h hb]
  rfl

/-- C2, amended: `navigate_into(NavigateToParent)` sets the parent's focus
point to `(floor((rect.x_end - rect.x_start) * fx),
floor((rect.y_end - rect.y_start) * fy))` — the registered sublayout rect's
extent scaled by the exit fraction and truncated, with no offset by the
rect's origin — and, when that cell holds an Element, focuses it and
returns `WithinLayout`. -/
theorem c2_amended_no_origin_offset (fuel : Nat) (a : Arena) (i : Nat) (n : LayoutGrid)
    (lid fid : String) (cnode : Nat) (rect erect : Rect) (exit_x exit_y : Frac)
    (directive : NavigationDirective) (px py : Nat)
    (h : getNode a i = .ok n)
    (hsub : n.sublayouts.lookup lid = some (.Sublayout cnode rect))
    (hpx : px = (Frac.scale ((rect.x_end : Int) - (rect.x_start : Int)) exit_x).toUsize)
    (hpy : py = (Frac.scale ((rect.y_end : Int) - (rect.y_start : Int)) exit_y).toUsize)
    (hbnd : n.grid.within_bounds (px : Int) (py : Int) = true)
    (hcell : n.grid.at' px py = .ok (some (.Element fid erect))) :
    (navFns (fuel + 2)).navigate_into a i (.NavigateToParent (exit_x, exit_y) directive lid) =
      .ok (setNode a i { n with layout_state := some ⟨(px : Int), (py : Int)⟩ },
           .WithinLayout fid) := by
  have hstep : (navFns (fuel + 2)).navigate_into a i
      (.NavigateToParent (exit_x, exit_y) directive lid)
      = navigateIntoF (navFns (fuel + 1)) a i
        (.NavigateToParent (exit_x, exit_y) directive lid) := rfl
  rw [hstep]
  unfold navigateIntoF
  rw [h]
  simp only [res_bind_ok]
  simp only [hsub]
  rw [← hpx, ← hpy, set_point_ok a i px py n h hbnd]
  simp only [res_bind_ok]
  rw [getNode_setNode_self h]
  simp only [res_bind_ok, res_pure]
  have htn : (navFns (fuel + 1)).try_navigate_to_point
      = tryNavigateToPointF (navFns fuel) := rfl
  rw [htn]
  simp only [Int.toNat_natCast]
  rw [try_navigate_elem (navFns fuel) _ i px py { n with layout_state := some ⟨(px : Int), (py : Int)⟩ }
        fid erect directive (getNode_setNode_self h _) hcell hbnd]
  simp only [res_bind_ok]
  rw [setNode_setNode_self]

/-- C2 amended witness: concrete instance of
`c2_amended_no_origin_offset` on `parentExitNode` with exit fraction
`(0, 0)`, landing on "p00" at `(0, 0)`. -/
theorem c2_amended_witness :
    (navFns 2).navigate_into [parentExitNode] 0
        (.NavigateToParent (⟨0, 1⟩, ⟨0, 1⟩) .Noop "L1") =
      .ok (setNode [parentExitNode] 0 { parentExitNode with layout_state := some ⟨0, 0⟩ },
           .WithinLayout "p00") :=
  c2_amended_no_origin_offset 0 [parentExitNode] 0 parentExitNode "L1" "p00" 1
    ⟨2, 4, 3, 5⟩ ⟨0, 0, 0, 0⟩ ⟨0, 1⟩ ⟨0, 1⟩ .Noop 0 0 rfl rfl (by decide) (by decide)
    (by decide) (by decide)

theorem res_throw {α : Type} (e : Err) : (throw e : Res α) = .error e := rfl

theorem set_point_inv {a : Arena} {i x y : Nat} {a' : Arena}
    (h : LayoutGrid.set_point a i x y = .ok a') :
    ∃ n, getNode a i = .ok n ∧ n.grid.within_bounds (x : Int) (y : Int) = true ∧
      a' = setNode a i { n with layout_state := some ⟨(x : Int), (y : Int)⟩ } := by
  unfold LayoutGrid.set_point at h
  cases hg : getNode a i with
  | error e => rw [hg] at h; exact absurd h (by simp [res_bind_error])
  | ok n =>
    rw [hg, res_bind_ok] at h
    cases hb : n.grid.within_bounds (x : Int) (y : Int) with
    | false => simp [hb, res_throw, res_bind_error] at h
    | true =>
      simp [hb] at h
      exact ⟨n, rfl, hb, h.symm⟩

theorem tnp_within_focus (f : NavFns) (a : Arena) (i x y : Nat)
    (directive : NavigationDirective) (a' : Arena) (fid : String)
    (h : tryNavigateToPointF f a i x y directive = .ok (a', some (.WithinLayout fid))) :
    FocusOnElement a' i fid := by
  unfold tryNavigateToPointF at h
  cases hg : getNode a i with
  | error e => rw [hg] at h; exact absurd h (by simp [res_bind_error])
  | ok n =>
    rw [hg, res_bind_ok] at h
    cases hat : n.grid.at' x y with
    | error e => rw [hat] at h; exact absurd h (by simp [res_bind_error])
    | ok c =>
      rw [hat, res_bind_ok] at h
      split at h
      · simp at h
      · next fid' r =>
        cases hsp : LayoutGrid.set_point a i x y with
        | error e => rw [hsp] at h; simp [res_bind_error] at h
        | ok a1 =>
          rw [hsp, res_bind_ok] at h
          simp only [Except.ok.injEq, Prod.mk.injEq, Option.some.injEq,
            NavigationResult.WithinLayout.injEq] at h
          obtain ⟨ha1, hfid⟩ := h
          obtain ⟨m, hm, hmb, hma⟩ := set_point_inv hsp
          have hmn : m = n := by rw [hm] at hg; exact Except.ok.inj hg
          subst hmn hfid
          refine ⟨{ m with layout_state := some ⟨(x : Int), (y : Int)⟩ }, x, y, r,
            ?_, rfl, hmb, hat⟩
          rw [← ha1, hma]
          exact getNode_setNode_self hm _
      · next child rect =>
        simp only [] at h
        cases hni : f.navigate_into a child (.NavigateToChild
            (⟨(x : Int) - (rect.x_start : Int), (rect.x_end : Int) - (rect.x_start : Int)⟩,
             ⟨(y : Int) - (rect.y_start : Int), (rect.y_end : Int) - (rect.y_start : Int)⟩)
            directive) with
        | error e => rw [hni] at h; simp [res_bind_error] at h
        | ok pr =>
          rw [hni, res_bind_ok] at h
          obtain ⟨a2, r2⟩ := pr
          cases r2 <;> simp at h

theorem navFns_tnp_within_focus (fuel : Nat) (a : Arena) (i x y : Nat)
    (directive : NavigationDirective) (a' : Arena) (fid : String)
    (h : (navFns fuel).try_navigate_to_point a i x y directive
      = .ok (a', some (.WithinLayout fid))) :
    FocusOnElement a' i fid := by
  cases fuel with
  | zero => simp [navFns, navFuelZero] at h
  | succ k => exact tnp_within_focus (navFns k) a i x y directive a' fid h

theorem tno_not_within (fuel : Nat) (a : Arena) (i : Nat) (out_from : Point)
    (directive : NavigationDirective) (a' : Arena) (fid : String)
    (h : (navFns fuel).try_navigate_out a i out_from directive = .ok (a', .WithinLayout fid)) :
    False := by
  cases fuel with
  | zero => simp [navFns, navFuelZero] at h
  | succ k =>
    have hk : (navFns (k + 1)).try_navigate_out = tryNavigateOutF (navFns k) := rfl
    rw [hk] at h
    unfold tryNavigateOutF at h
    cases hg : getNode a i with
    | error e => rw [hg] at h; exact absurd h (by simp [res_bind_error])
    | ok n =>
      rw [hg, res_bind_ok] at h
      split at h
      · next p heq =>
        simp only [] at h
        cases hni : (navFns k).navigate_into a p
            (.NavigateToParent (⟨out_from.x, (n.grid.x_size : Int)⟩,
              ⟨out_from.y, (n.grid.y_size : Int)⟩) directive n.layout_id) with
        | error e => rw [hni] at h; simp [res_bind_error] at h
        | ok pr =>
          rw [hni, res_bind_ok] at h
          obtain ⟨a2, r2⟩ := pr
          cases r2 <;> simp at h
      · simp at h

theorem primary_scan_within_focus (fuel : Nat) : ∀ (a : Arena) (i : Nat) (next : Point)
    (dx dy : Int) (directive : NavigationDirective) (a' : Arena) (fid : String),
    (navFns fuel).primary_scan a i next dx dy directive = .ok (a', some (.WithinLayout fid)) →
    FocusOnElement a' i fid := by
  induction fuel with
  | zero => intro a i next dx dy directive a' fid h; simp [navFns, navFuelZero] at h
  | succ fuel ih =>
    intro a i next dx dy directive a' fid h
    have hk : (navFns (fuel + 1)).primary_scan = primaryScanF (navFns fuel) := rfl
    rw [hk] at h
    unfold primaryScanF at h
    cases hg : getNode a i with
    | error e => rw [hg] at h; exact absurd h (by simp [res_bind_error])
    | ok n =>
      rw [hg, res_bind_ok] at h
      split at h
      · cases htr : (navFns fuel).try_navigate_to_point a i next.x.toNat next.y.toNat
            directive with
        | error e => rw [htr] at h; simp [res_bind_error] at h
        | ok pr =>
          rw [htr, res_bind_ok] at h
          obtain ⟨a1, r1⟩ := pr
          match r1 with
          | some s =>
            simp only [Except.ok.injEq, Prod.mk.injEq, Option.some.injEq] at h
            obtain ⟨ha1, hs⟩ := h
            subst ha1 hs
            exact navFns_tnp_within_focus fuel a i next.x.toNat next.y.toNat directive _ _ htr
          | none => exact ih a1 i (next.add dx dy) dx dy directive a' fid h
      · simp at h

theorem side_probe_within_focus (fuel : Nat) : ∀ (a : Arena) (i : Nat) (pt : Point)
    (sx sy : Int) (directive : NavigationDirective) (a' : Arena) (fid : String),
    (navFns fuel).side_probe a i pt sx sy directive = .ok (a', some (.WithinLayout fid)) →
    FocusOnElement a' i fid := by
  induction fuel with
  | zero => intro a i pt sx sy directive a' fid h; simp [navFns, navFuelZero] at h
  | succ fuel ih =>
    intro a i pt sx sy directive a' fid h
    have hk : (navFns (fuel + 1)).side_probe = sideProbeF (navFns fuel) := rfl
    rw [hk] at h
    unfold sideProbeF at h
    cases hg : getNode a i with
    | error e => rw [hg] at h; exact absurd h (by simp [res_bind_error])
    | ok n =>
      rw [hg, res_bind_ok] at h
      split at h
      · cases hat : n.grid.at' pt.x.toNat pt.y.toNat with
        | error e => rw [hat] at h; simp [res_bind_error] at h
        | ok c =>
          rw [hat, res_bind_ok] at h
          split at h
          · simp at h
          · cases htr : (navFns fuel).try_navigate_to_point a i pt.x.toNat pt.y.toNat
                directive with
            | error e => rw [htr] at h; simp [res_bind_error] at h
            | ok pr =>
              rw [htr, res_bind_ok] at h
              obtain ⟨a1, r1⟩ := pr
              match r1 with
              | some s =>
                simp only [Except.ok.injEq, Prod.mk.injEq, Option.some.injEq] at h
                obtain ⟨ha1, hs⟩ := h
                subst ha1 hs
                exact navFns_tnp_within_focus fuel a i pt.x.toNat pt.y.toNat directive _ _ htr
              | none => exact ih a1 i (pt.add sx sy) sx sy directive a' fid h
      · simp at h

theorem side_scan_within_focus (fuel : Nat) : ∀ (a : Arena) (i : Nat) (next : Point)
    (dx dy : Int) (d : Direction) (directive : NavigationDirective) (a' : Arena) (fid : String),
    (navFns fuel).side_scan a i next dx dy d directive = .ok (a', some (.WithinLayout fid)) →
    FocusOnElement a' i fid := by
  induction fuel with
  | zero => intro a i next dx dy d directive a' fid h; simp [navFns, navFuelZero] at h
  | succ fuel ih =>
    intro a i next dx dy d directive a' fid h
    have hk : (navFns (fuel + 1)).side_scan = sideScanF (navFns fuel) := rfl
    rw [hk] at h
    unfold sideScanF at h
    cases hg : getNode a i with
    | error e => rw [hg] at h; exact absurd h (by simp [res_bind_error])
    | ok n =>
      rw [hg, res_bind_ok] at h
      split at h
      · simp only [] at h
        cases hpa : (navFns fuel).side_probe a i
            (next.add d.as_side_dir_vectors.1.1 d.as_side_dir_vectors.1.2)
            d.as_side_dir_vectors.1.1 d.as_side_dir_vectors.1.2 directive with
        | error e => rw [hpa] at h; simp [res_bind_error] at h
        | ok pra =>
          rw [hpa, res_bind_ok] at h
          obtain ⟨a1, r1⟩ := pra
          match r1 with
          | some s =>
            simp only [Except.ok.injEq, Prod.mk.injEq, Option.some.injEq] at h
            obtain ⟨ha1, hs⟩ := h
            subst ha1 hs
            exact side_probe_within_focus fuel a i _ _ _ directive _ _ hpa
          | none =>
            simp only [] at h
            cases hpb : (navFns fuel).side_probe a1 i
                (next.add d.as_side_dir_vectors.2.1 d.as_side_dir_vectors.2.2)
                d.as_side_dir_vectors.2.1 d.as_side_dir_vectors.2.2 directive with
            | error e => rw [hpb] at h; simp [res_bind_error] at h
            | ok prb =>
              rw [hpb, res_bind_ok] at h
              obtain ⟨a2, r2⟩ := prb
              match r2 with
              | some s =>
                simp only [Except.ok.injEq, Prod.mk.injEq, Option.some.injEq] at h
                obtain ⟨ha2, hs⟩ := h
                subst ha2 hs
                exact side_probe_within_focus fuel a1 i _ _ _ directive _ _ hpb
              | none => exact ih a2 i (next.add dx dy) dx dy d directive a' fid h
      · simp at h

theorem nav_direction_rest (fuel : Nat) (a : Arena) (i : Nat) (n : LayoutGrid)
    (corner : Point) (dx dy : Int) (d : Direction) (a' : Arena) (fid : String)
    (h : (if !n.grid.within_bounds (corner.add dx dy).x (corner.add dx dy).y then
            (navFns fuel).try_navigate_out a i corner (.Direction d)
          else do
            match ← (navFns fuel).primary_scan a i (corner.add dx dy) dx dy
                (.Direction d) with
            | (a, some s) => Except.ok (a, s)
            | (a, none) => do
              match ← (navFns fuel).side_scan a i (corner.add dx dy) dx dy d
                  (.Direction d) with
              | (a, some s) => Except.ok (a, s)
              | (a, none) => Except.ok (a, NavigationResult.NoNextItem))
          = .ok (a', .WithinLayout fid)) :
    FocusOnElement a' i fid := by
  split at h
  · exact (tno_not_within fuel a i corner (.Direction d) a' fid h).elim
  · cases hps : (navFns fuel).primary_scan a i (corner.add dx dy) dx dy (.Direction d) with
    | error e => rw [hps] at h; simp [res_bind_error] at h
    | ok pr =>
      rw [hps, res_bind_ok] at h
      obtain ⟨a1, r1⟩ := pr
      match r1 with
      | some s =>
        simp only [Except.ok.injEq, Prod.mk.injEq] at h
        obtain ⟨ha1, hs⟩ := h
        subst ha1 hs
        exact primary_scan_within_focus fuel a i (corner.add dx dy) dx dy (.Direction d) _ _ hps
      | none =>
        simp only [] at h
        cases hss : (navFns fuel).side_scan a1 i (corner.add dx dy) dx dy d (.Direction d) with
        | error e => rw [hss] at h; simp [res_bind_error] at h
        | ok pr2 =>
          rw [hss, res_bind_ok] at h
          obtain ⟨a2, r2⟩ := pr2
          match r2 with
          | some s =>
            simp only [Except.ok.injEq, Prod.mk.injEq] at h
            obtain ⟨ha2, hs⟩ := h
            subst ha2 hs
            exact side_scan_within_focus fuel a1 i (corner.add dx dy) dx dy d (.Direction d) _ _ hss
          | none => simp at h

/-- C7, amended: the focus invariant holds for every focus point set by
Element resolution: whenever `navigate` with a `Direction` directive
returns `WithinLayout fid` on node `i` of any arena, node `i` ends with its
focus point set, in bounds, on a cell holding `Element fid`.  (The original
claim fails for cross-layout navigations that end in `NoNextItem`, which
can leave a node's focus point on an empty cell: see
`c7_focus_left_on_empty_cell`.) -/
theorem c7_amended_within_focuses_element (fuel : Nat) (a : Arena) (i : Nat)
    (d : Direction) (a' : Arena) (fid : String)
    (h : LayoutGrid.navigate fuel a i (.Direction d) = .ok (a', .WithinLayout fid)) :
    FocusOnElement a' i fid := by
  cases fuel with
  | zero => simp [LayoutGrid.navigate, navFns, navFuelZero] at h
  | succ k =>
    rw [show LayoutGrid.navigate (k + 1) a i (.Direction d)
        = navigateF (navFns k) a i (.Direction d) from rfl] at h
    unfold navigateF at h
    cases hg : getNode a i with
    | error e => rw [hg] at h; exact absurd h (by simp [res_bind_error])
    | ok n =>
      rw [hg, res_bind_ok] at h
      simp only [LayoutGrid.specialOf] at h
      split at h
      · next fid0 rect0 heq =>
        cases d <;>
          simp only [Direction.as_dir_vector, res_pure, res_bind_ok] at h <;>
          exact nav_direction_rest k a i n _ _ _ _ a' fid h
      · next e heq =>
        split at h
        · next p hp =>
          cases d <;>
            simp only [Direction.as_dir_vector, res_pure, res_bind_ok] at h <;>
            exact nav_direction_rest k a i n _ _ _ _ a' fid h
        · next hp => simp [res_throw, res_bind_error] at h

/-- C7 amended witness: navigating Right on the `simple_layout` fixture
returns `WithinLayout "0_beta"` and leaves the focus on that element. -/
theorem c7_amended_witness :
    LayoutGrid.navigate 40 simpleReady 0 (.Direction .Right)
      = .ok (simpleAfterRight, .WithinLayout "0_beta")
    ∧ FocusOnElement simpleAfterRight 0 "0_beta" := by
  have h : LayoutGrid.navigate 40 simpleReady 0 (.Direction .Right)
      = .ok (simpleAfterRight, .WithinLayout "0_beta") := by decide
  exact ⟨h, c7_amended_within_focuses_element 40 simpleReady 0 .Right simpleAfterRight
    "0_beta" h⟩

theorem res_bind_pure_map {α β : Type} (x : Res α) (f : α → β) :
    (x >>= fun v => (.ok (f v) : Res β)) = x.map f := by
  cases x <;> rfl

theorem navFns_tnp_elem (fuel : Nat) (a : Arena) (i x y : Nat) (n : LayoutGrid)
    (fid : String) (r : Rect) (directive : NavigationDirective)
    (h : getNode a i = .ok n) (hat : n.grid.at' x y = .ok (some (.Element fid r))) :
    (navFns (fuel + 1)).try_navigate_to_point a i x y directive =
      (LayoutGrid.set_point a i x y).map fun a2 => (a2, some (.WithinLayout fid)) := by
  have hk : (navFns (fuel + 1)).try_navigate_to_point = tryNavigateToPointF (navFns fuel) := rfl
  rw [hk]
  unfold tryNavigateToPointF
  rw [h, res_bind_ok, hat, res_bind_ok]
  exact res_bind_pure_map _ _

theorem navFns_tnp_empty (fuel : Nat) (a : Arena) (i x y : Nat) (n : LayoutGrid)
    (directive : NavigationDirective)
    (h : getNode a i = .ok n) (hat : n.grid.at' x y = .ok none) :
    (navFns (fuel + 1)).try_navigate_to_point a i x y directive = .ok (a, none) := by
  have hk : (navFns (fuel + 1)).try_navigate_to_point = tryNavigateToPointF (navFns fuel) := rfl
  rw [hk]
  unfold tryNavigateToPointF
  rw [h, res_bind_ok, hat, res_bind_ok]

theorem side_probe_first_spec (fuel : Nat) : ∀ (a : Arena) (i : Nat) (n : LayoutGrid)
    (pt : Point) (sx sy : Int) (directive : NavigationDirective),
    getNode a i = .ok n →
    (navFns fuel).side_probe a i pt sx sy directive =
      match sideProbeFirst n.grid fuel pt sx sy with
      | .error e => .error e
      | .ok none => .ok (a, none)
      | .ok (some (x, y, fid)) =>
        (LayoutGrid.set_point a i x y).map fun a2 => (a2, some (.WithinLayout fid)) := by
  induction fuel with
  | zero => intro a i n pt sx sy directive h; rfl
  | succ fuel ih =>
    intro a i n pt sx sy directive h
    have hk : (navFns (fuel + 1)).side_probe = sideProbeF (navFns fuel) := rfl
    rw [hk]
    unfold sideProbeF
    rw [h, res_bind_ok]
    conv_rhs => rw [sideProbeFirst]
    cases hwb : n.grid.within_bounds pt.x pt.y with
    | false => simp only [hwb, Bool.false_eq_true, if_false]
    | true =>
      simp only [hwb, if_true]
      cases hat : n.grid.at' pt.x.toNat pt.y.toNat with
      | error e => rfl
      | ok c =>
        rw [res_bind_ok]
        match c with
        | some (.Sublayout cn rr) => rfl
        | some (.Element fid r) =>
          cases fuel with
          | zero => rfl
          | succ k =>
            rw [navFns_tnp_elem k a i pt.x.toNat pt.y.toNat n fid r directive h hat]
            simp only []
            rw [if_neg (Nat.succ_ne_zero k)]
            simp only []
            cases hsp : LayoutGrid.set_point a i pt.x.toNat pt.y.toNat with
            | error e => rfl
            | ok a2 => rfl
        | none =>
          cases fuel with
          | zero => rfl
          | succ k =>
            rw [navFns_tnp_empty k a i pt.x.toNat pt.y.toNat n directive h hat, res_bind_ok]
            exact ih a i n (pt.add sx sy) sx sy directive h

/-- C8: the secondary (side) scan of `navigate` equals the spec-side
first-Element search `sideScanFirst`: probes stop at grid boundaries, a
`Sublayout` occupant terminates a probe (so a side scan never resolves into
a nested grid and never returns `AcrossLayout`), and the first Element in
the traversal order — both perpendicular sides at each successive
primary-line offset — is the one focused and returned as `WithinLayout`. -/
theorem c8_side_scan_spec (fuel : Nat) : ∀ (a : Arena) (i : Nat) (n : LayoutGrid)
    (next : Point) (x_dir y_dir : Int) (d : Direction) (directive : NavigationDirective),
    getNode a i = .ok n →
    (navFns fuel).side_scan a i next x_dir y_dir d directive =
      match sideScanFirst n.grid fuel next x_dir y_dir d with
      | .error e => .error e
      | .ok none => .ok (a, none)
      | .ok (some (x, y, fid)) =>
        (LayoutGrid.set_point a i x y).map fun a2 => (a2, some (.WithinLayout fid)) := by
  induction fuel with
  | zero => intro a i n next x_dir y_dir d directive h; rfl
  | succ fuel ih =>
    intro a i n next x_dir y_dir d directive h
    have hk : (navFns (fuel + 1)).side_scan = sideScanF (navFns fuel) := rfl
    rw [hk]
    unfold sideScanF
    rw [h, res_bind_ok]
    conv_rhs => rw [sideScanFirst]
    cases hwb : n.grid.within_bounds next.x next.y with
    | false => simp only [hwb, Bool.false_eq_true, if_false]
    | true =>
      simp only [hwb, if_true]
      rw [side_probe_first_spec fuel a i n
        (next.add d.as_side_dir_vectors.1.1 d.as_side_dir_vectors.1.2)
        d.as_side_dir_vectors.1.1 d.as_side_dir_vectors.1.2 directive h]
      cases hpa : sideProbeFirst n.grid fuel
          (next.add d.as_side_dir_vectors.1.1 d.as_side_dir_vectors.1.2)
          d.as_side_dir_vectors.1.1 d.as_side_dir_vectors.1.2 with
      | error e => rfl
      | ok oa =>
        match oa with
        | some (x1, y1, fid1) =>
          simp only []
          cases hsp : LayoutGrid.set_point a i x1 y1 with
          | error e => rfl
          | ok a2 => rfl
        | none =>
          rw [res_bind_ok]
          simp only []
          rw [side_probe_first_spec fuel a i n
            (next.add d.as_side_dir_vectors.2.1 d.as_side_dir_vectors.2.2)
            d.as_side_dir_vectors.2.1 d.as_side_dir_vectors.2.2 directive h]
          cases hpb : sideProbeFirst n.grid fuel
              (next.add d.as_side_dir_vectors.2.1 d.as_side_dir_vectors.2.2)
              d.as_side_dir_vectors.2.1 d.as_side_dir_vectors.2.2 with
          | error e => rfl
          | ok ob =>
            match ob with
            | some (x2, y2, fid2) =>
              simp only []
              cases hsp : LayoutGrid.set_point a i x2 y2 with
              | error e => rfl
              | ok a2 => rfl
            | none =>
              simp only []
              exact ih a i n (next.add x_dir y_dir) x_dir y_dir d directive h

/-- C8 witness: a concrete side scan on `parentExitNode` walking Down from
`(3, 3)` finds "p23" by probing sideways and focuses it. -/
theorem c8_witness :
    (navFns 9).side_scan [parentExitNode] 0 ⟨3, 3⟩ 0 1 .Down .Noop
      = .ok (setNode [parentExitNode] 0 { parentExitNode with layout_state := some ⟨2, 3⟩ },
             some (.WithinLayout "p23")) := by
  rw [c8_side_scan_spec 9 [parentExitNode] 0 parentExitNode ⟨3, 3⟩ 0 1 .Down .Noop rfl]
  decide
